import Mathlib

/-!
Shallow embedding of the core of the surgical-simulation backend
(`backend/simulation_generator.py` and `backend/assessment_engine.py`).

Conventions of the embedding:
* Python floats are modelled as exact rationals (`ℚ`); the numeric literals in
  the source (0.7, 1.5, ...) are small decimal fractions, written here as
  explicit fractions such as `7/10`.
* Python `int(x)` truncation toward zero is `py_int`.
* Python list indexing (which accepts negative indices and raises `IndexError`
  out of range) is `py_get`.
* `random.choice`, `random.random` and `random.randint` draws are passed in as
  explicit parameters (`pick` indices reduced mod the choice-list length, a
  `roll` rational for `random.random()`); this makes the nondeterminism of the
  source an explicit input.
* Fallible code returns `Except String α`; the error strings name the Python
  exception or the error-taxonomy entry of the specification.
* Wall-clock data (`datetime.now()` timestamps) is omitted from the records:
  no claim mentions it.
* Dictionary lookups with a default (`d.get(k, v)`) are modelled by structure
  fields with that default; `accuracy` keeps `Option ℚ` because the source
  reads it with two different defaults (0 when scoring, 1.0 when collecting
  improvement areas).
-/

/-- Apostrophe character, used to build source strings containing one. -/
def apos : String := String.singleton (Char.ofNat 39)

/-- Substring test: Python `needle in hay` on strings. -/
def is_prefix_chars : List Char → List Char → Bool
  | [], _ => true
  | _ :: _, [] => false
  | a :: as, b :: bs => a == b && is_prefix_chars as bs

/-- Python `pat in hay` (substring containment). -/
def str_contains (hay pat : String) : Bool :=
  (hay.toList.tails).any (fun t => is_prefix_chars pat.toList t)

/-- ASCII lower-casing of one character (the strings of this code base are
ASCII, so this agrees with Python `str.lower`). Structurally recursive
replacements are used for the core string functions throughout, so that
every definition reduces in the kernel. -/
def lower_char (c : Char) : Char :=
  if 65 ≤ c.toNat ∧ c.toNat ≤ 90 then Char.ofNat (c.toNat + 32) else c

/-- Python `s.lower()` on ASCII strings. -/
def lower_str (s : String) : String := String.mk (s.data.map lower_char)

/-- Replace every occurrence of `pat` (non-empty) in the character list,
left to right; `fuel` bounds the recursion and is always supplied as more
than the list length, so it never runs out. -/
def replace_chars : ℕ → List Char → List Char → List Char → List Char
  | 0, s, _, _ => s
  | _ + 1, [], _, _ => []
  | fuel + 1, c :: rest, pat, rep =>
    if is_prefix_chars pat (c :: rest) then
      rep ++ replace_chars fuel (List.drop (pat.length - 1) rest) pat rep
    else c :: replace_chars fuel rest pat rep

/-- Python `s.replace(pat, rep)` (all occurrences; empty patterns do not
occur in the source). -/
def replace_str (s pat rep : String) : String :=
  if pat.data.isEmpty then s
  else String.mk (replace_chars (s.data.length + 1) s.data pat.data rep.data)

/-- Python `s.split("-")` on the character list. -/
def split_dash_chars : List Char → List Char → List (List Char)
  | [], acc => [acc.reverse]
  | c :: rest, acc =>
    if c == '-' then acc.reverse :: split_dash_chars rest []
    else split_dash_chars rest (c :: acc)

/-- Python `s.split("-")`. -/
def split_dash (s : String) : List String :=
  (split_dash_chars s.data []).map String.mk

/-- Accumulating decimal parse; fails on any non-digit. -/
def to_nat_digits : List Char → ℕ → Option ℕ
  | [], acc => some acc
  | c :: rest, acc =>
    if 48 ≤ c.toNat ∧ c.toNat ≤ 57 then to_nat_digits rest (acc * 10 + (c.toNat - 48))
    else none

/-- Python `int(s)` for the plain decimal numerals of the catalog;
anything else (including the empty string) fails. -/
def str_to_nat (s : String) : Option ℕ :=
  match s.data with
  | [] => none
  | _ => to_nat_digits s.data 0

/-- Python list indexing `xs[i]`: non-negative indices from the front,
negative indices wrap from the back, anything else raises `IndexError`
(modelled as `none`). -/
def py_get {α : Type _} (xs : List α) (i : ℤ) : Option α :=
  if 0 ≤ i then xs.get? i.toNat
  else if -(xs.length : ℤ) ≤ i then xs.get? ((xs.length : ℤ) + i).toNat
  else none

/-- Python `random.choice(xs)` with the random draw passed as `pick`,
reduced mod the list length; `dflt` is unreachable for the non-empty
lists the source uses. -/
def py_choice {α : Type _} (xs : List α) (pick : ℕ) (dflt : α) : α :=
  xs.getD (pick % xs.length) dflt

/-- Python `int()` on a float/rational: truncation toward zero. -/
def py_int (q : ℚ) : ℤ :=
  if q < 0 then -(Int.floor (-q)) else Int.floor q

/-- Python `int(p)` on each dash-separated component of a duration string
(after stripping the trailing " minutes"), failing on the first component
that is not a numeral, as the list comprehension in `_calculate_duration`
does. -/
def parse_nat_parts : List String → Except String (List ℕ)
  | [] => Except.ok []
  | p :: rest =>
    match str_to_nat p with
    | some n => (parse_nat_parts rest).map (fun ns => n :: ns)
    | none => Except.error "ValueError: invalid literal for int"

/-- The numeric components of a duration string such as "10-15 minutes". -/
def duration_nums (s : String) : Except String (List ℕ) :=
  parse_nat_parts (split_dash (replace_str s " minutes" ""))

/-- The first two numeric components of a duration string, as used by
`_assess_time_management`, `_extend_duration` and `_reduce_duration`
(`int(parts[0])`, `int(parts[1])`; extra components are ignored). -/
def parse_duration_pair (s : String) : Except String (ℕ × ℕ) :=
  match split_dash (replace_str s " minutes" "") with
  | p0 :: p1 :: _ =>
    match str_to_nat p0, str_to_nat p1 with
    | some a, some b => Except.ok (a, b)
    | _, _ => Except.error "ValueError: invalid literal for int"
  | _ => Except.error "IndexError: list index out of range"

/-- Render a duration range back to the source format "a-b minutes". -/
def format_duration (a b : ℤ) : String :=
  toString a ++ "-" ++ toString b ++ " minutes"

deriving instance DecidableEq for Except

/-- Projection of an `Except` onto its error message. -/
def err_of {α : Type _} : Except String α → Option String
  | Except.error e => some e
  | Except.ok _ => none

/-- Whether an `Except` computation succeeded. -/
def is_ok {α : Type _} : Except String α → Bool
  | Except.error _ => false
  | Except.ok _ => true

/-- Python `round(x, 1)` (round-half-to-even at one decimal place) on the
exact rational value. -/
def round_half_even (q : ℚ) : ℤ :=
  let f := Int.floor q
  let r := q - f
  if r < 1/2 then f
  else if 1/2 < r then f + 1
  else if f % 2 = 0 then f else f + 1

/-- Round a rational to one decimal place, ties to even. -/
def py_round1 (q : ℚ) : ℚ := (round_half_even (q * 10) : ℚ) / 10

/- ## Data model -/

/-- One decision point attached to intermediate-difficulty steps. -/
structure DecisionPoint where
  scenario : String
  options : List String
  correct_choice : String
deriving DecidableEq

/-- A pre-planned complication record produced by `_generate_complications`. -/
structure Complication where
  type : String
  severity : String
  location : String
  trigger_step : ℕ
  management_options : List String
deriving DecidableEq

/-- A procedural step: the catalog fields plus the optional keys difficulty
customization, objective enhancement and complication attachment add. -/
structure Step where
  step_number : ℕ
  title : String
  description : String
  duration : String
  critical_points : List String
  instruments : List String
  guidance_level : Option String := none
  hints : Option (List String) := none
  decision_points : Option (List DecisionPoint) := none
  time_pressure : Bool := false
  learning_focus : List String := []
  assessment_weight : Option ℚ := none
  complication : Option Complication := none
deriving DecidableEq

/-- A catalog entry of `_load_procedure_templates`. -/
structure ProcedureTemplate where
  name : String
  category : String
  base_duration : ℕ
  steps : List Step
deriving DecidableEq

/-- The `procedure_info` block of a generated scenario. -/
structure ProcedureInfo where
  name : String
  category : String
  estimated_duration : ℤ
deriving DecidableEq

/-- A generated scenario (the `created_at` wall-clock field is omitted). -/
structure Scenario where
  procedure_info : ProcedureInfo
  steps : List Step
  complications : List Complication
  learning_objectives : List String
  difficulty_level : String
deriving DecidableEq

/-- One trainee action, with the defaults the source supplies via
`dict.get`. `accuracy` is optional because the source defaults it to 0 when
scoring and to 1.0 when collecting improvement areas. -/
structure ActionRecord where
  type : String := ""
  skill_category : String := ""
  accuracy : Option ℚ := none
  clarity : ℚ := 0
  timing : ℚ := 0
  professionalism : ℚ := 0
  outcome : String := ""
  expected_time : ℚ := 300
  hesitation_time : ℚ := 0
deriving DecidableEq

/-- The feedback bundle of a step assessment. -/
structure Feedback where
  overall_level : String
  summary : String
  technical_feedback : String
  non_technical_feedback : String
  recommendations : List String
deriving DecidableEq

/-- The scored outcome of one step (timestamp omitted). -/
structure StepAssessment where
  step_number : ℤ
  technical_score : ℚ
  non_technical_score : ℚ
  overall_score : ℚ
  feedback : Feedback
  time_taken : ℚ
  areas_for_improvement : List String
deriving DecidableEq

/-- The `simulation` document stored for a run, as read by both engines. -/
structure SimulationDoc where
  procedure_info : ProcedureInfo
  steps : List Step
  complications : List Complication
  difficulty_level : String
deriving DecidableEq

/-- The merged simulation state a caller passes to the assessment engine. -/
structure SimulationState where
  simulation : SimulationDoc
  step_assessments : List StepAssessment := []
  simulation_id : Option String := none
deriving DecidableEq

/- ## Assessment engine: static tables (`_load_scoring_criteria`,
`_load_feedback_templates`) -/

/-- A weighted sub-skill entry of the scoring-criteria table. -/
structure SkillCriterion where
  max_score : ℚ
  weight : ℚ
deriving DecidableEq

/-- Per-procedure criteria: technical and non-technical sub-skill tables
(the non-technical table is loaded but never read by the engine). -/
structure ProcedureCriteria where
  technical_skills : List (String × SkillCriterion)
  non_technical_skills : List (String × SkillCriterion)
deriving DecidableEq

/-- The scoring-criteria table; its only keys are
"laparoscopic_cholecystectomy" and "appendectomy". -/
def scoring_criteria : List (String × ProcedureCriteria) :=
  [("laparoscopic_cholecystectomy",
    { technical_skills :=
        [("trocar_placement", { max_score := 20, weight := 15/100 }),
         ("camera_navigation", { max_score := 15, weight := 10/100 }),
         ("tissue_handling", { max_score := 25, weight := 20/100 }),
         ("critical_view_achievement", { max_score := 30, weight := 25/100 }),
         ("dissection_technique", { max_score := 25, weight := 20/100 }),
         ("hemostasis", { max_score := 15, weight := 10/100 })],
      non_technical_skills :=
        [("communication", { max_score := 20, weight := 30/100 }),
         ("decision_making", { max_score := 25, weight := 35/100 }),
         ("time_management", { max_score := 20, weight := 20/100 }),
         ("team_leadership", { max_score := 15, weight := 15/100 })] }),
   ("appendectomy",
    { technical_skills :=
        [("appendix_identification", { max_score := 25, weight := 25/100 }),
         ("mesoappendix_division", { max_score := 30, weight := 30/100 }),
         ("base_division", { max_score := 25, weight := 25/100 }),
         ("specimen_removal", { max_score := 20, weight := 20/100 })],
      non_technical_skills :=
        [("communication", { max_score := 20, weight := 30/100 }),
         ("decision_making", { max_score := 25, weight := 35/100 }),
         ("situational_awareness", { max_score := 20, weight := 35/100 })] })]

/-- The per-tier feedback summary template pools. -/
def feedback_templates : List (String × List String) :=
  [("excellent",
    ["Outstanding technique demonstrated",
     "Perfect execution of critical steps",
     "Excellent decision-making under pressure"]),
   ("good",
    ["Good technique with minor areas for improvement",
     "Solid understanding of procedure demonstrated",
     "Appropriate response to complications"]),
   ("needs_improvement",
    ["Technique needs refinement in key areas",
     "Consider additional practice on critical steps",
     "Review anatomical landmarks and approach"]),
   ("poor",
    ["Significant technical errors identified",
     "Safety concerns with current approach",
     "Requires substantial additional training"])]

/-- The keyword table of `_is_skill_relevant_to_step`. -/
def skill_keywords : List (String × List String) :=
  [("trocar_placement", ["trocar", "insertion", "pneumoperitoneum"]),
   ("camera_navigation", ["laparoscopy", "visualization", "camera"]),
   ("tissue_handling", ["dissection", "grasping", "manipulation"]),
   ("critical_view_achievement", ["critical view", "safety", "triangle"]),
   ("dissection_technique", ["dissect", "separate", "divide"]),
   ("hemostasis", ["bleeding", "clip", "cautery", "hemostasis"])]

/-- `_is_skill_relevant_to_step`: keyword match against the lowered step
title and description. -/
def is_skill_relevant_to_step (skill : String) (step : Step) : Bool :=
  let step_title := lower_str step.title
  let step_desc := lower_str step.description
  match skill_keywords.lookup skill with
  | some keywords =>
    keywords.any (fun k => str_contains step_title k || str_contains step_desc k)
  | none => false

/-- `_score_technical_skill`: accumulate +20/+15/+5 per action whose
`skill_category` contains the skill name, scaling the running total by 0.8
whenever `time_taken` exceeds 1.5 times the action's expected time, and
clamp the result to at most 100. -/
def score_technical_skill (skill : String) (actions : List ActionRecord) (time_taken : ℚ) : ℚ :=
  let score := actions.foldl
    (fun score action =>
      if str_contains (lower_str action.skill_category) skill then
        let s1 := score +
          (if action.accuracy.getD 0 > 8/10 then (20 : ℚ)
           else if action.accuracy.getD 0 > 6/10 then 15 else 5)
        if time_taken > action.expected_time * (3/2) then s1 * (8/10) else s1
      else score) 0
  min score 100

/-- `_assess_technical_skills`: weight-normalized combination of the
relevant skills, multiplied by 100 exactly as in the source
(`total_score / total_weight * 100`); 0 when the procedure key is absent
from the criteria table or no skill is relevant. -/
def assess_technical_skills (procedure_type : String) (step : Step)
    (actions : List ActionRecord) (time_taken : ℚ) : ℚ :=
  match scoring_criteria.lookup procedure_type with
  | none => 0
  | some criteria =>
    let relevant := criteria.technical_skills.filter
      (fun sc => is_skill_relevant_to_step sc.1 step)
    let total_score :=
      (relevant.map (fun sc => score_technical_skill sc.1 actions time_taken * sc.2.weight)).sum
    let total_weight := (relevant.map (fun sc => sc.2.weight)).sum
    if total_weight > 0 then total_score / total_weight * 100 else 0

/-- `_assess_communication`: 50 when no communication-tagged action is
present, else 25 points per satisfied criterion per communication action,
clamped to 100. -/
def assess_communication (actions : List ActionRecord) : ℚ :=
  let communication_actions := actions.filter (fun a => a.type == "communication")
  if communication_actions.isEmpty then 50
  else
    let score := communication_actions.foldl
      (fun score comm =>
        let s1 := if comm.clarity > 8/10 then score + 25 else score
        let s2 := if comm.timing > 8/10 then s1 + 25 else s1
        if comm.professionalism > 8/10 then s2 + 25 else s2) 0
    min score 100

/-- `_assess_decision_making`: 70 with no decision-tagged actions, else the
fraction of correct (1) and safe-alternative (0.7) outcomes, times 100. -/
def assess_decision_making (actions : List ActionRecord) (_step : Step) : ℚ :=
  let decision_actions := actions.filter (fun a => a.type == "decision")
  if decision_actions.isEmpty then 70
  else
    let correct_decisions := decision_actions.foldl
      (fun c d =>
        if d.outcome == "correct" then c + 1
        else if d.outcome == "safe_alternative" then c + 7/10 else c) (0 : ℚ)
    let total_decisions := decision_actions.length
    if total_decisions > 0 then correct_decisions / total_decisions * 100 else 70

/-- `_assess_time_management`: 100 inside the nominal range (in seconds);
linear decay to a floor of 70 when faster, to a floor of 30 when slower.
Fails when the duration string does not parse. -/
def assess_time_management (time_taken : ℚ) (step : Step) : Except String ℚ :=
  match parse_duration_pair step.duration with
  | Except.error e => Except.error e
  | Except.ok (a, b) =>
    let expected_min : ℚ := a * 60
    let expected_max : ℚ := b * 60
    Except.ok
      (if expected_min ≤ time_taken ∧ time_taken ≤ expected_max then 100
       else if time_taken < expected_min then
         max 70 (100 - (expected_min - time_taken) / expected_min * 30)
       else
         max 30 (100 - (time_taken - expected_max) / expected_max * 50))

/-- The awareness-indicator keyword set of `_assess_situational_awareness`. -/
def awareness_indicators : List String :=
  ["monitors_vitals", "checks_equipment", "communicates_status",
   "identifies_complications", "requests_assistance"]

/-- `_assess_situational_awareness`: base 70, +10 per action whose type
contains an awareness indicator, clamped to 100. -/
def assess_situational_awareness (actions : List ActionRecord) : ℚ :=
  let score := actions.foldl
    (fun score action =>
      if awareness_indicators.any (fun ind => str_contains action.type ind) then score + 10
      else score) 70
  min score 100

/-- `_assess_non_technical_skills`: the 0.30/0.35/0.20/0.15 weighted sum of
the four sub-scores. -/
def assess_non_technical_skills (step : Step) (actions : List ActionRecord)
    (time_taken : ℚ) : Except String ℚ :=
  let communication_score := assess_communication actions
  let decision_score := assess_decision_making actions step
  match assess_time_management time_taken step with
  | Except.error e => Except.error e
  | Except.ok time_score =>
    let awareness_score := assess_situational_awareness actions
    Except.ok (communication_score * (30/100) + decision_score * (35/100) +
               time_score * (20/100) + awareness_score * (15/100))

/-- `_generate_technical_feedback` (the `actions` argument is unused in the
source as well). -/
def generate_technical_feedback (score : ℚ) (_actions : List ActionRecord) : String :=
  if score ≥ 85 then
    "Excellent technical execution with proper instrument handling and surgical technique."
  else if score ≥ 70 then
    "Good technical skills demonstrated with room for refinement in precision."
  else if score ≥ 55 then
    "Technical skills need improvement. Focus on instrument control and anatomical identification."
  else
    "Significant technical deficiencies identified. Additional practice and supervision recommended."

/-- `_generate_non_technical_feedback`. -/
def generate_non_technical_feedback (score : ℚ) : String :=
  if score ≥ 85 then
    "Outstanding communication and decision-making throughout the procedure."
  else if score ≥ 70 then
    "Good team interaction and appropriate clinical decisions made."
  else if score ≥ 55 then
    "Communication and decision-making skills need development."
  else
    "Poor team communication and questionable clinical decisions observed."

/-- `_generate_recommendations`. -/
def generate_recommendations (score : ℚ) (step : Step) : List String :=
  (if score < 70 then
    ["Review " ++ lower_str step.title ++ " technique in textbook",
     "Practice on simulation models before next attempt",
     "Seek mentorship for technique refinement"]
   else []) ++
  (if score < 85 then
    ["Focus on smooth, deliberate movements",
     "Improve communication with surgical team"]
   else [])

/-- `_generate_step_feedback`; the `random.choice` over the tier's template
pool is modelled by the `pick` index. -/
def generate_step_feedback (overall_score technical_score non_technical_score : ℚ)
    (step : Step) (actions : List ActionRecord) (pick : ℕ) : Feedback :=
  let level :=
    if overall_score ≥ 90 then "excellent"
    else if overall_score ≥ 75 then "good"
    else if overall_score ≥ 60 then "needs_improvement"
    else "poor"
  { overall_level := level
    summary := py_choice ((feedback_templates.lookup level).getD []) pick ""
    technical_feedback := generate_technical_feedback technical_score actions
    non_technical_feedback := generate_non_technical_feedback non_technical_score
    recommendations := generate_recommendations overall_score step }

/-- `_identify_improvement_areas`. -/
def identify_improvement_areas (technical_score non_technical_score : ℚ)
    (actions : List ActionRecord) : List String :=
  (if technical_score < 70 then ["Technical Skills"] else []) ++
  (if non_technical_score < 70 then ["Communication & Decision Making"] else []) ++
  (if actions.any (fun a => a.hesitation_time > 30) then ["Confidence & Decision Speed"] else []) ++
  (if actions.any (fun a => a.accuracy.getD 1 < 6/10) then ["Precision & Accuracy"] else [])

/-- The procedure key `assess_step` derives from the scenario name:
lower-cased, spaces replaced by underscores. -/
def procedure_key (name : String) : String :=
  replace_str (lower_str name) " " "_"

/-- The body of `assess_step` once the target step has been resolved. -/
def build_step_assessment (procedure_type : String) (current_step : Step)
    (step_number : ℤ) (user_actions : List ActionRecord) (time_taken : ℚ)
    (pick : ℕ) : Except String StepAssessment :=
  let technical_score := assess_technical_skills procedure_type current_step user_actions time_taken
  match assess_non_technical_skills current_step user_actions time_taken with
  | Except.error e => Except.error e
  | Except.ok non_technical_score =>
    let overall_score := technical_score * (7/10) + non_technical_score * (3/10)
    Except.ok
      { step_number := step_number
        technical_score := technical_score
        non_technical_score := non_technical_score
        overall_score := overall_score
        feedback := generate_step_feedback overall_score technical_score
          non_technical_score current_step user_actions pick
        time_taken := time_taken
        areas_for_improvement :=
          identify_improvement_areas technical_score non_technical_score user_actions }

/-- `assess_step`: resolve the target step by Python indexing at
`step_number - 1` (an out-of-range index raises `IndexError`, the
specification's `StepOutOfRange`), then score it. -/
def assess_step (simulation_data : SimulationState) (step_number : ℤ)
    (user_actions : List ActionRecord) (time_taken : ℚ) (pick : ℕ) :
    Except String StepAssessment :=
  let procedure_type := procedure_key simulation_data.simulation.procedure_info.name
  match py_get simulation_data.simulation.steps (step_number - 1) with
  | none => Except.error "StepOutOfRange"
  | some current_step =>
    build_step_assessment procedure_type current_step step_number user_actions time_taken pick

/- ## Scenario generator: procedure catalog (`_load_procedure_templates`) -/

/-- The laparoscopic-cholecystectomy template. -/
def cholecystectomy_template : ProcedureTemplate :=
  { name := "Laparoscopic Cholecystectomy"
    category := "General Surgery"
    base_duration := 60
    steps :=
      [{ step_number := 1
         title := "Patient Preparation"
         description := "Position patient supine, prep and drape surgical site"
         duration := "10-15 minutes"
         critical_points :=
           ["Proper patient positioning", "Sterile field maintenance", "Antibiotic prophylaxis"]
         instruments := ["surgical drapes", "prep solution", "positioning aids"] },
       { step_number := 2
         title := "Trocar Placement"
         description := "Create pneumoperitoneum and insert trocars"
         duration := "10-15 minutes"
         critical_points :=
           ["Safe entry technique", "Proper CO2 insufflation", "Trocar positioning"]
         instruments := ["veress needle", "trocars", "CO2 insufflator"] },
       { step_number := 3
         title := "Diagnostic Laparoscopy"
         description := "Inspect abdominal cavity and identify anatomy"
         duration := "5-10 minutes"
         critical_points :=
           ["Systematic inspection", "Adhesion identification", "Anatomical orientation"]
         instruments := ["laparoscope", "graspers"] },
       { step_number := 4
         title := "Critical View of Safety"
         description := "Achieve critical view of safety before dissection"
         duration := "15-20 minutes"
         critical_points :=
           ["Clear identification of Calot" ++ apos ++ "s triangle",
            "Only 2 structures entering gallbladder", "Clear view of liver bed"]
         instruments := ["graspers", "dissector", "clip applier"] },
       { step_number := 5
         title := "Gallbladder Dissection"
         description := "Dissect gallbladder from liver bed"
         duration := "15-25 minutes"
         critical_points :=
           ["Maintain proper plane", "Hemostasis control", "Avoid perforation"]
         instruments := ["electrocautery", "graspers", "irrigation"] },
       { step_number := 6
         title := "Specimen Removal"
         description := "Remove gallbladder and close incisions"
         duration := "10-15 minutes"
         critical_points :=
           ["Secure specimen in bag", "Inspect for bleeding", "Remove CO2"]
         instruments := ["specimen bag", "sutures", "local anesthetic"] }] }

/-- The laparoscopic-appendectomy template (catalog key "appendectomy",
scenario name "Laparoscopic Appendectomy"). -/
def appendectomy_template : ProcedureTemplate :=
  { name := "Laparoscopic Appendectomy"
    category := "General Surgery"
    base_duration := 45
    steps :=
      [{ step_number := 1
         title := "Patient Preparation"
         description := "Position patient and establish pneumoperitoneum"
         duration := "10-15 minutes"
         critical_points :=
           ["Left lateral tilt positioning", "Safe trocar insertion", "Adequate visualization"]
         instruments := ["trocars", "CO2 insufflator", "laparoscope"] },
       { step_number := 2
         title := "Appendix Identification"
         description := "Locate and mobilize the appendix"
         duration := "5-10 minutes"
         critical_points :=
           ["Identify cecum and ileocecal valve", "Locate appendix base",
            "Assess inflammation extent"]
         instruments := ["graspers", "atraumatic forceps"] },
       { step_number := 3
         title := "Mesoappendix Division"
         description := "Divide mesoappendix and appendiceal artery"
         duration := "10-15 minutes"
         critical_points :=
           ["Identify appendiceal artery", "Sequential clip application", "Avoid thermal injury"]
         instruments := ["clip applier", "electrocautery", "scissors"] },
       { step_number := 4
         title := "Appendix Transection"
         description := "Transect appendix and remove specimen"
         duration := "5-10 minutes"
         critical_points :=
           ["Secure base with clips", "Transect between clips", "Remove specimen safely"]
         instruments := ["clip applier", "scissors", "specimen bag"] },
       { step_number := 5
         title := "Closure"
         description := "Close incisions and apply dressings"
         duration := "5-10 minutes"
         critical_points :=
           ["Inspect for bleeding", "Close fascial defects", "Apply sterile dressings"]
         instruments := ["sutures", "dressings", "local anesthetic"] }] }

/-- The knee-arthroscopy template. -/
def knee_arthroscopy_template : ProcedureTemplate :=
  { name := "Knee Arthroscopy"
    category := "Orthopedic"
    base_duration := 90
    steps :=
      [{ step_number := 1
         title := "Patient Positioning"
         description := "Position patient supine with knee flexed at 90 degrees"
         duration := "10-15 minutes"
         critical_points :=
           ["Proper knee positioning", "Tourniquet application", "Sterile field preparation"]
         instruments := ["positioning aids", "tourniquet", "surgical drapes"] },
       { step_number := 2
         title := "Portal Placement"
         description := "Create anterolateral and anteromedial portals"
         duration := "10-15 minutes"
         critical_points :=
           ["Proper portal positioning", "Avoid neurovascular structures",
            "Adequate portal spacing"]
         instruments := ["scalpel", "arthroscope", "cannulas"] },
       { step_number := 3
         title := "Diagnostic Arthroscopy"
         description := "Systematic examination of knee compartments"
         duration := "15-20 minutes"
         critical_points :=
           ["Systematic compartment examination", "Documentation of findings",
            "Assessment of pathology"]
         instruments := ["arthroscope", "probe", "camera system"] },
       { step_number := 4
         title := "Meniscal Assessment"
         description := "Evaluate meniscal integrity and pathology"
         duration := "20-30 minutes"
         critical_points :=
           ["Meniscal tear identification", "Stability assessment", "Treatment planning"]
         instruments := ["probe", "graspers", "meniscal instruments"] },
       { step_number := 5
         title := "Cartilage Evaluation"
         description := "Assess articular cartilage surfaces"
         duration := "15-25 minutes"
         critical_points :=
           ["Cartilage defect mapping", "ICRS classification", "Treatment options"]
         instruments := ["probe", "measuring devices", "documentation tools"] },
       { step_number := 6
         title := "Closure and Post-op"
         description := "Close portals and apply dressings"
         duration := "10-15 minutes"
         critical_points :=
           ["Portal closure", "Dressing application", "Post-operative instructions"]
         instruments := ["sutures", "dressings", "compression bandage"] }] }

/-- The procedure-template registry. -/
def procedure_templates : List (String × ProcedureTemplate) :=
  [("laparoscopic_cholecystectomy", cholecystectomy_template),
   ("appendectomy", appendectomy_template),
   ("knee_arthroscopy", knee_arthroscopy_template)]

/-- The complication library (`_load_complications`), kept as a
string-keyed dictionary per entry because the "equipment_failure" entry
carries a "type" key where the other entries carry "severity" and
"locations". -/
def complication_library : List (String × List (String × List String)) :=
  [("bleeding",
    [("severity", ["mild", "moderate", "severe"]),
     ("locations", ["trocar site", "liver bed", "mesenteric vessel"]),
     ("management", ["pressure", "electrocautery", "clip application", "conversion"])]),
   ("bowel_injury",
    [("severity", ["serosal", "full_thickness"]),
     ("locations", ["small bowel", "colon"]),
     ("management", ["primary repair", "resection", "conversion"])]),
   ("equipment_failure",
    [("type", ["CO2 insufflator", "electrocautery", "camera"]),
     ("management", ["backup equipment", "troubleshooting", "conversion"])])]

/- ## Scenario generator: customization -/

/-- `_extend_duration`: multiply both parsed bounds by `factor` and
truncate each to an integer. -/
def extend_duration (duration_str : String) (factor : ℚ) : Except String String :=
  match parse_duration_pair duration_str with
  | Except.error e => Except.error e
  | Except.ok (a, b) =>
    Except.ok (format_duration (py_int (a * factor)) (py_int (b * factor)))

/-- `_reduce_duration`: identical arithmetic to `_extend_duration`. -/
def reduce_duration (duration_str : String) (factor : ℚ) : Except String String :=
  match parse_duration_pair duration_str with
  | Except.error e => Except.error e
  | Except.ok (a, b) =>
    Except.ok (format_duration (py_int (a * factor)) (py_int (b * factor)))

/-- `_generate_beginner_hints`. -/
def generate_beginner_hints (step : Step) : List String :=
  ["Take your time with " ++ lower_str step.title,
   "Ensure proper visualization before proceeding",
   "Communicate with your team throughout the step"]

/-- `_add_decision_points` (the step argument is unused in the source). -/
def add_decision_points (_step : Step) : List DecisionPoint :=
  [{ scenario := "Unusual anatomy encountered"
     options := ["Continue with caution", "Seek senior help", "Convert to open"]
     correct_choice := "Seek senior help" }]

/-- The error raised in the "advanced" branch of
`_customize_steps_for_difficulty`: the source calls
`self._add_technique_variations(step)`, a method that is defined nowhere
in the repository, so Python raises `AttributeError` before the duration
is reduced. -/
def missing_variations_error : String :=
  "AttributeError: SimulationGenerator object has no attribute _add_technique_variations"

/-- The per-step body of `_customize_steps_for_difficulty`. -/
def customize_step (difficulty : String) (step : Step) : Except String Step :=
  if difficulty == "beginner" then
    match extend_duration step.duration (3/2) with
    | Except.error e => Except.error e
    | Except.ok d =>
      Except.ok { step with
        guidance_level := some "detailed"
        hints := some (generate_beginner_hints step)
        duration := d }
  else if difficulty == "intermediate" then
    Except.ok { step with
      guidance_level := some "moderate"
      decision_points := some (add_decision_points step) }
  else if difficulty == "advanced" then
    Except.error missing_variations_error
  else if difficulty == "expert" then
    match reduce_duration step.duration (7/10) with
    | Except.error e => Except.error e
    | Except.ok d =>
      Except.ok { step with
        guidance_level := some "none"
        time_pressure := true
        duration := d }
  else Except.ok step

/-- `_customize_steps_for_difficulty`: the deep copy of the source is the
value semantics of the embedding; each step is transformed in order and
the first failure aborts, as the Python loop does. -/
def customize_steps_for_difficulty : List Step → String → Except String (List Step)
  | [], _ => Except.ok []
  | step :: rest, difficulty =>
    match customize_step difficulty step with
    | Except.error e => Except.error e
    | Except.ok s =>
      match customize_steps_for_difficulty rest difficulty with
      | Except.error e => Except.error e
      | Except.ok others => Except.ok (s :: others)

/-- `_enhance_steps_for_objectives` on one step: the learning-focus list
collects the objectives whose lowered text occurs in the lowered title or
description, and a 2.0 assessment weight is set when any matched. -/
def enhance_step (objectives : List String) (step : Step) : Step :=
  let focus := objectives.filter
    (fun o => str_contains (lower_str step.title) (lower_str o) ||
              str_contains (lower_str step.description) (lower_str o))
  { step with
    learning_focus := focus
    assessment_weight := if focus.isEmpty then step.assessment_weight else some 2 }

/-- `_enhance_steps_for_objectives`. -/
def enhance_steps_for_objectives (steps : List Step) (objectives : List String) : List Step :=
  steps.map (enhance_step objectives)

/-- The difficulty-keyed complication probability table. -/
def prob_map : List (String × ℚ) :=
  [("beginner", 3/10), ("intermediate", 5/10), ("advanced", 7/10), ("expert", 8/10)]

/-- `_generate_complications`, with the random draws explicit: `roll` is
`random.random()`, the `pick` indices select from the uniform choices and
`2 + trig_pick % 4` is the `random.randint(2, 5)` draw. The dictionary
accesses on the library entry fail with `KeyError` exactly when the key is
absent, as in Python. -/
def generate_complications (procedure_type difficulty : String) (roll : ℚ)
    (type_pick sev_pick loc_pick trig_pick : ℕ) : Except String (List Complication) :=
  let prob := (prob_map.lookup difficulty).getD (5/10)
  if roll < prob then
    let possible_complications :=
      if procedure_type == "laparoscopic_cholecystectomy" then
        ["bleeding", "bowel_injury", "equipment_failure"]
      else ["bleeding", "equipment_failure"]
    let selected := py_choice possible_complications type_pick ""
    match complication_library.lookup selected with
    | none => Except.error "KeyError"
    | some complication_data =>
      match complication_data.lookup "severity" with
      | none => Except.error "KeyError: severity"
      | some severities =>
        match complication_data.lookup "locations" with
        | none => Except.error "KeyError: locations"
        | some locations =>
          match complication_data.lookup "management" with
          | none => Except.error "KeyError: management"
          | some management =>
            Except.ok
              [{ type := selected
                 severity := py_choice severities sev_pick ""
                 location := py_choice locations loc_pick ""
                 trigger_step := 2 + trig_pick % 4
                 management_options := management }]
  else Except.ok []

/-- `_calculate_duration`: sum, over the steps, of half the sum of the
numeric components of the duration string, then truncate with `int()`. -/
def step_midpoint_total : List Step → Except String ℚ
  | [] => Except.ok 0
  | step :: rest =>
    match duration_nums step.duration with
    | Except.error e => Except.error e
    | Except.ok nums =>
      match step_midpoint_total rest with
      | Except.error e => Except.error e
      | Except.ok total => Except.ok ((nums.sum : ℚ) / 2 + total)

/-- `_calculate_duration` (the difficulty argument is unused in the
source as well). -/
def calculate_duration (steps : List Step) (_difficulty : String) : Except String ℤ :=
  match step_midpoint_total steps with
  | Except.error e => Except.error e
  | Except.ok total => Except.ok (py_int total)

/-- `generate_scenario`: template lookup, difficulty customization,
objective enhancement, optional complication generation and duration
estimation, in source order. The patient profile is accepted and unused,
as in the source; the `created_at` timestamp is omitted. -/
def generate_scenario {π : Type} (procedure_type difficulty_level : String)
    (_patient_profile : π) (learning_objectives : List String)
    (complications_enabled : Bool) (roll : ℚ)
    (type_pick sev_pick loc_pick trig_pick : ℕ) : Except String Scenario :=
  match procedure_templates.lookup procedure_type with
  | none => Except.error ("Procedure type " ++ procedure_type ++ " not supported")
  | some template =>
    match customize_steps_for_difficulty template.steps difficulty_level with
    | Except.error e => Except.error e
    | Except.ok customized =>
      let steps := enhance_steps_for_objectives customized learning_objectives
      match (if complications_enabled then
               generate_complications procedure_type difficulty_level roll
                 type_pick sev_pick loc_pick trig_pick
             else Except.ok []) with
      | Except.error e => Except.error e
      | Except.ok complications =>
        match calculate_duration steps difficulty_level with
        | Except.error e => Except.error e
        | Except.ok dur =>
          Except.ok
            { procedure_info :=
                { name := template.name
                  category := template.category
                  estimated_duration := dur }
              steps := steps
              complications := complications
              learning_objectives := learning_objectives
              difficulty_level := difficulty_level }

/-- The result of `get_next_step`: either the completion marker or the
step that follows. -/
inductive NextStep where
  | completed (message : String)
  | next (s : Step)
deriving DecidableEq

/-- `get_next_step`: completion once `current_step` reaches the step
count, otherwise the step at `current_step` (Python indexing), with every
complication whose trigger step equals `current_step + 1` attached (last
one wins, as in the source loop). The assessment argument is not
consulted, as in the source. -/
def get_next_step {β : Type} (simulation_data : SimulationState) (current_step : ℤ)
    (_assessment : β) : Except String NextStep :=
  let steps := simulation_data.simulation.steps
  if (steps.length : ℤ) ≤ current_step then
    Except.ok (NextStep.completed "Simulation completed successfully")
  else
    match py_get steps current_step with
    | none => Except.error "IndexError: list index out of range"
    | some base =>
      Except.ok (NextStep.next
        (simulation_data.simulation.complications.foldl
          (fun st comp =>
            if (comp.trigger_step : ℤ) == current_step + 1 then
              { st with complication := some comp }
            else st) base))

/-- The ad-hoc complication record of `generate_dynamic_complication`. -/
structure DynComplication where
  description : String
  severity : String
  immediate_actions : List String
  time_limit : ℕ
deriving DecidableEq

/-- The "unexpected_bleeding" ad-hoc scenario. -/
def unexpected_bleeding_scenario : DynComplication :=
  { description := "Unexpected bleeding from hepatic artery branch"
    severity := "moderate"
    immediate_actions :=
      ["Apply direct pressure", "Identify bleeding source", "Consider clip application"]
    time_limit := 300 }

/-- The "adhesions" ad-hoc scenario. -/
def adhesions_scenario : DynComplication :=
  { description := "Dense adhesions obscuring critical view"
    severity := "mild"
    immediate_actions :=
      ["Careful adhesiolysis", "Maintain visualization", "Consider alternative approach"]
    time_limit := 600 }

/-- The choice list of `generate_dynamic_complication`; note it has three
entries while the scenario dictionary below has two. -/
def dynamic_complication_types : List String :=
  ["unexpected_bleeding", "adhesions", "equipment_malfunction"]

/-- The ad-hoc scenario dictionary; it has no "equipment_malfunction"
entry. -/
def complication_scenarios : List (String × DynComplication) :=
  [("unexpected_bleeding", unexpected_bleeding_scenario),
   ("adhesions", adhesions_scenario)]

/-- `generate_dynamic_complication`: uniform choice (the `pick` draw)
among the three type names, then `complication_scenarios.get(selected, {})`;
`none` models the empty dictionary default. The simulation data and current
step are read but unused, as in the source. -/
def generate_dynamic_complication (_simulation_data : SimulationState)
    (_current_step : ℕ) (pick : ℕ) : Option DynComplication :=
  let selected := py_choice dynamic_complication_types pick ""
  complication_scenarios.lookup selected

/- ## Assessment engine: final assessment -/

/-- The per-step summary entries of the final score block. -/
structure IndividualStep where
  step : ℤ
  score : ℚ
  time : ℚ
deriving DecidableEq

/-- The `scores` block of the final assessment. -/
structure ScoresSummary where
  technical_average : ℚ
  non_technical_average : ℚ
  overall_average : ℚ
  individual_steps : List IndividualStep
deriving DecidableEq

/-- The `performance_metrics` block of the final assessment. -/
structure PerformanceMetrics where
  total_time_minutes : ℚ
  complications_handled : ℕ
  safety_violations : ℕ
  efficiency_rating : String
deriving DecidableEq

/-- The trend block; consistency is a real number because the source takes
a floating-point square root of the score variance. -/
structure Trends where
  direction : String
  consistency : ℝ
  peak_performance_step : ℕ
  lowest_performance_step : ℕ

/-- The final-feedback block; the consistency note of the source
interpolates the consistency value into a string, kept here as the
underlying number. -/
structure FinalFeedback where
  performance_level : String
  summary_message : String
  trend_analysis : String
  consistency_value : ℝ

/-- The learning-plan block. -/
structure LearningPlan where
  immediate_focus : List String
  practice_recommendations : List String
  next_steps : List String
deriving DecidableEq

/-- The final assessment (completion date omitted). -/
structure FinalAssessment where
  simulation_id : Option String
  scores : ScoresSummary
  performance_metrics : PerformanceMetrics
  trends : Trends
  final_feedback : FinalFeedback
  learning_plan : LearningPlan
  certification_eligible : Bool
  next_difficulty_ready : Bool

/-- First maximum of a non-empty score list (Python `max`). -/
def list_max_q : List ℚ → ℚ
  | [] => 0
  | [x] => x
  | x :: rest => max x (list_max_q rest)

/-- First minimum of a non-empty score list (Python `min`). -/
def list_min_q : List ℚ → ℚ
  | [] => 0
  | [x] => x
  | x :: rest => min x (list_min_q rest)

/-- Python `list.index(x)`: position of the first occurrence. -/
def py_index (l : List ℚ) (x : ℚ) : ℕ :=
  (l.findIdx? (fun y => y == x)).getD l.length

/-- The trend direction of `_analyze_performance_trends`: compare the mean
of the first half (floor split) against the rest, with a 5-point band. -/
def analyze_direction (scores : List ℚ) : String :=
  if scores.length > 1 then
    let first_half := scores.take (scores.length / 2)
    let second_half := scores.drop (scores.length / 2)
    let avg_first := first_half.sum / first_half.length
    let avg_second := second_half.sum / second_half.length
    if avg_second > avg_first + 5 then "improving"
    else if avg_second < avg_first - 5 then "declining"
    else "stable"
  else "insufficient_data"

/-- Round to one decimal place, ties to even, on a real number (Python
`round(x, 1)` on the exact value). -/
noncomputable def round_half_even_r (x : ℝ) : ℤ :=
  let f := Int.floor x
  let r := x - f
  if r < 1/2 then f
  else if 1/2 < r then f + 1
  else if f % 2 = 0 then f else f + 1

/-- `_calculate_consistency`: 100 below two scores, else
`max(0, 100 - 2 * stddev)` rounded to one decimal. -/
noncomputable def calculate_consistency (scores : List ℚ) : ℝ :=
  if scores.length < 2 then 100
  else
    let mean : ℚ := scores.sum / scores.length
    let variance : ℚ := (scores.map (fun x => (x - mean) ^ 2)).sum / scores.length
    let std_dev : ℝ := Real.sqrt (variance : ℝ)
    (round_half_even_r ((max 0 (100 - std_dev * 2)) * 10) : ℝ) / 10

/-- `_analyze_performance_trends`. -/
noncomputable def analyze_performance_trends (assessments : List StepAssessment) : Trends :=
  let scores := assessments.map (fun a => a.overall_score)
  { direction := analyze_direction scores
    consistency := calculate_consistency scores
    peak_performance_step := py_index scores (list_max_q scores) + 1
    lowest_performance_step := py_index scores (list_min_q scores) + 1 }

/-- `_count_safety_violations`: steps whose feedback summary contains
"safety" case-insensitively. -/
def count_safety_violations (assessments : List StepAssessment) : ℕ :=
  (assessments.filter (fun a => str_contains (lower_str a.feedback.summary) "safety")).length

/-- `_calculate_efficiency`: four-tier band of total time against the
scenario's estimated duration in seconds. -/
def calculate_efficiency (total_time : ℚ) (simulation_data : SimulationState) : String :=
  let expected_duration : ℚ :=
    (simulation_data.simulation.procedure_info.estimated_duration : ℚ) * 60
  if total_time ≤ expected_duration then "Excellent"
  else if total_time ≤ expected_duration * (12/10) then "Good"
  else if total_time ≤ expected_duration * (15/10) then "Acceptable"
  else "Needs Improvement"

/-- `_generate_final_feedback`. -/
noncomputable def generate_final_feedback (overall_score : ℚ) (trends : Trends)
    (simulation_data : SimulationState) : FinalFeedback :=
  let procedure_name := simulation_data.simulation.procedure_info.name
  let difficulty := simulation_data.simulation.difficulty_level
  let pl_msg :=
    if overall_score ≥ 90 then
      ("Outstanding", "Exceptional performance on " ++ procedure_name ++ " at " ++ difficulty ++ " level.")
    else if overall_score ≥ 75 then
      ("Proficient", "Good performance on " ++ procedure_name ++ " with areas for refinement.")
    else if overall_score ≥ 60 then
      ("Developing", "Developing skills demonstrated. Continue practice on " ++ procedure_name ++ ".")
    else
      ("Novice", "Foundational skills need development before attempting " ++ procedure_name ++ ".")
  { performance_level := pl_msg.1
    summary_message := pl_msg.2
    trend_analysis := "Performance trend: " ++ trends.direction
    consistency_value := trends.consistency }

/-- `_generate_learning_plan`. -/
def generate_learning_plan (technical_avg non_technical_avg : ℚ) (_trends : Trends) :
    LearningPlan :=
  { immediate_focus :=
      (if technical_avg < 70 then ["Technical Skill Development"] else []) ++
      (if non_technical_avg < 70 then ["Communication & Decision Making"] else [])
    practice_recommendations :=
      (if technical_avg < 70 then
        ["Practice basic laparoscopic skills on trainer",
         "Review anatomical landmarks",
         "Work on instrument handling precision"]
       else []) ++
      (if non_technical_avg < 70 then
        ["Practice team communication scenarios",
         "Review decision-making frameworks",
         "Participate in team-based simulations"]
       else [])
    next_steps :=
      if technical_avg ≥ 85 ∧ non_technical_avg ≥ 85 then
        ["Ready for increased difficulty level", "Consider mentoring junior trainees"]
      else if technical_avg ≥ 75 ∧ non_technical_avg ≥ 75 then
        ["Practice additional procedure variations", "Focus on efficiency improvements"]
      else
        ["Repeat current difficulty level", "Seek additional supervision"] }

/-- The body of `generate_final_assessment` for a non-empty history. -/
noncomputable def build_final_assessment (simulation_data : SimulationState) : FinalAssessment :=
  let step_assessments := simulation_data.step_assessments
  let technical_scores := step_assessments.map (fun a => a.technical_score)
  let non_technical_scores := step_assessments.map (fun a => a.non_technical_score)
  let overall_scores := step_assessments.map (fun a => a.overall_score)
  let avg_technical := technical_scores.sum / technical_scores.length
  let avg_non_technical := non_technical_scores.sum / non_technical_scores.length
  let avg_overall := overall_scores.sum / overall_scores.length
  let total_time := (step_assessments.map (fun a => a.time_taken)).sum
  let trends := analyze_performance_trends step_assessments
  { simulation_id := simulation_data.simulation_id
    scores :=
      { technical_average := py_round1 avg_technical
        non_technical_average := py_round1 avg_non_technical
        overall_average := py_round1 avg_overall
        individual_steps := step_assessments.map
          (fun a => { step := a.step_number, score := a.overall_score, time := a.time_taken }) }
    performance_metrics :=
      { total_time_minutes := py_round1 (total_time / 60)
        complications_handled :=
          (step_assessments.filter
            (fun a => str_contains a.feedback.summary "complication")).length
        safety_violations := count_safety_violations step_assessments
        efficiency_rating := calculate_efficiency total_time simulation_data }
    trends := trends
    final_feedback := generate_final_feedback avg_overall trends simulation_data
    learning_plan := generate_learning_plan avg_technical avg_non_technical trends
    certification_eligible := decide (avg_overall ≥ 75)
    next_difficulty_ready := decide (avg_overall ≥ 85) }

/-- `generate_final_assessment`: the designated empty-result marker (the
source returns a dictionary with only an "error" key) when no step
assessments exist, else the full report. -/
noncomputable def generate_final_assessment (simulation_data : SimulationState) :
    Except String FinalAssessment :=
  if simulation_data.step_assessments.isEmpty then
    Except.error "No step assessments found"
  else
    Except.ok (build_final_assessment simulation_data)

/- ## Concrete fixtures used by witnesses and counterexamples -/

/-- A stored simulation state holding the raw cholecystectomy steps. -/
def chole_state : SimulationState :=
  { simulation :=
      { procedure_info :=
          { name := "Laparoscopic Cholecystectomy"
            category := "General Surgery"
            estimated_duration := 122 }
        steps := cholecystectomy_template.steps
        complications := []
        difficulty_level := "intermediate" } }

/-- A stored simulation state holding the raw knee-arthroscopy steps. -/
def knee_state : SimulationState :=
  { simulation :=
      { procedure_info :=
          { name := "Knee Arthroscopy"
            category := "Orthopedic"
            estimated_duration := 100 }
        steps := knee_arthroscopy_template.steps
        complications := []
        difficulty_level := "advanced" } }

/-- One accurate trocar-placement action, on time. -/
def trocar_action : ActionRecord :=
  { skill_category := "trocar_placement", accuracy := some (9/10), expected_time := 300 }

/-- A communication action satisfying all three quality criteria. -/
def good_comm : ActionRecord :=
  { type := "communication", clarity := 9/10, timing := 9/10, professionalism := 9/10 }

/- ## Helper lemmas on the Python-indexing model -/

/-- Python indexing yields nothing exactly outside `[-len, len)`. -/
theorem py_get_eq_none_iff {α : Type _} (xs : List α) (i : ℤ) :
    py_get xs i = none ↔ i < -(xs.length : ℤ) ∨ (xs.length : ℤ) ≤ i := by
  unfold py_get
  split_ifs with h1 h2
  · rw [List.get?_eq_none]
    constructor
    · intro h; omega
    · intro h; omega
  · rw [List.get?_eq_none]
    constructor
    · intro h; omega
    · intro h; omega
  · constructor
    · intro _; omega
    · intro _; rfl

/-- Python indexing at a non-negative index is plain indexing. -/
theorem py_get_of_nonneg {α : Type _} (xs : List α) (i : ℤ) (h : 0 ≤ i) :
    py_get xs i = xs.get? i.toNat := by
  unfold py_get
  rw [if_pos h]

/-- The only failures of `parse_duration_pair` are malformed-numeral and
missing-component errors. -/
theorem parse_duration_pair_error_cases (s e : String)
    (h : parse_duration_pair s = Except.error e) :
    e = "ValueError: invalid literal for int" ∨ e = "IndexError: list index out of range" := by
  unfold parse_duration_pair at h
  split at h
  · split at h
    · exact absurd h (by simp)
    · simp_all
  · simp_all

/-- `assess_time_management` fails only with a duration-parsing error. -/
theorem assess_time_management_error_cases (t : ℚ) (step : Step) (e : String)
    (h : assess_time_management t step = Except.error e) :
    e = "ValueError: invalid literal for int" ∨ e = "IndexError: list index out of range" := by
  unfold assess_time_management at h
  cases hp : parse_duration_pair step.duration with
  | error e2 =>
    rw [hp] at h
    simp only [Except.error.injEq] at h
    subst h
    exact parse_duration_pair_error_cases _ _ hp
  | ok ab =>
    obtain ⟨a, b⟩ := ab
    rw [hp] at h
    exact absurd h (by simp)

/-- `assess_non_technical_skills` fails only with a duration-parsing
error. -/
theorem assess_non_technical_skills_error_cases (step : Step)
    (actions : List ActionRecord) (t : ℚ) (e : String)
    (h : assess_non_technical_skills step actions t = Except.error e) :
    e = "ValueError: invalid literal for int" ∨ e = "IndexError: list index out of range" := by
  unfold assess_non_technical_skills at h
  cases ht : assess_time_management t step with
  | error e2 =>
    rw [ht] at h
    simp only [Except.error.injEq] at h
    subst h
    exact assess_time_management_error_cases _ _ _ ht
  | ok v =>
    rw [ht] at h
    exact absurd h (by simp)

/-- `build_step_assessment` never fails with the step-resolution error. -/
theorem build_step_assessment_ne_step_out_of_range (p : String) (st : Step) (n : ℤ)
    (acts : List ActionRecord) (t : ℚ) (pick : ℕ) :
    build_step_assessment p st n acts t pick ≠ Except.error "StepOutOfRange" := by
  unfold build_step_assessment
  cases hnt : assess_non_technical_skills st acts t with
  | error e =>
    intro hcontra
    simp only [Except.error.injEq] at hcontra
    rcases assess_non_technical_skills_error_cases _ _ _ _ hnt with h2 | h2 <;> simp_all
  | ok v => simp

/- ## C1: step resolution in `assess_step` -/

/-- C1 (counterexample): the claim says `assess_step` fails with
`StepOutOfRange` for every `step_number` below 1 and never returns a
`StepAssessment` there; but at `step_number = 0` on a six-step
cholecystectomy scenario the source resolves `steps[-1]` by Python
negative indexing and returns an assessment of the last step. -/
theorem assess_step_zero_succeeds_counterexample :
    is_ok (assess_step chole_state 0 [] 600 0) = true := by decide!

/-- C1 (amended): `assess_step` fails with `StepOutOfRange` exactly when
`step_number` exceeds the step count or is at most minus the step count
(Python negative indexing resolves `step_number` in `[1 - count, 0]`
instead of failing); for `step_number ≥ 1` it resolves the step at
1-indexed position `step_number` and assesses it. -/
theorem assess_step_bounds (sd : SimulationState) (n : ℤ)
    (acts : List ActionRecord) (t : ℚ) (pick : ℕ) :
    (assess_step sd n acts t pick = Except.error "StepOutOfRange" ↔
      n < 1 - (sd.simulation.steps.length : ℤ) ∨ (sd.simulation.steps.length : ℤ) < n) ∧
    (∀ st : Step, 1 ≤ n →
      sd.simulation.steps.get? (n - 1).toNat = some st →
      assess_step sd n acts t pick =
        build_step_assessment (procedure_key sd.simulation.procedure_info.name)
          st n acts t pick) := by
  constructor
  · unfold assess_step
    cases hpg : py_get sd.simulation.steps (n - 1) with
    | none =>
      have hoob := (py_get_eq_none_iff sd.simulation.steps (n - 1)).mp hpg
      simp only [hpg]
      constructor
      · intro _; omega
      · intro _; trivial
    | some st =>
      have hin : ¬ (n - 1 < -(sd.simulation.steps.length : ℤ) ∨
          (sd.simulation.steps.length : ℤ) ≤ n - 1) := by
        intro hcontra
        rw [← py_get_eq_none_iff] at hcontra
        rw [hpg] at hcontra
        exact Option.noConfusion hcontra
      simp only [hpg]
      constructor
      · intro hcontra
        exact absurd hcontra (build_step_assessment_ne_step_out_of_range _ _ _ _ _ _)
      · intro hcontra; omega
  · intro st h1 hsome
    unfold assess_step
    rw [py_get_of_nonneg _ _ (by omega), hsome]

/-- C1 (witness): the amended theorem applied to the cholecystectomy
state at step number 2. -/
theorem assess_step_bounds_witness :
    chole_state.simulation.steps.get? ((2 : ℤ) - 1).toNat = some cholecystectomy_template.steps[1] ∧
    assess_step chole_state 2 [] 600 0 =
      build_step_assessment (procedure_key chole_state.simulation.procedure_info.name)
        cholecystectomy_template.steps[1] 2 [] 600 0 := by
  refine ⟨by decide!, ?_⟩
  exact (assess_step_bounds chole_state 2 [] 600 0).2 _ (by norm_num) (by decide!)

/- ## C2: score ranges -/

/-- C2 (code bug evaluation): the claim (and the specification) promise a
technical score in [0, 100] for quality fields in [0, 1] and non-negative
time, but `_assess_technical_skills` multiplies the weight-normalized
average of the already-0-to-100 skill scores by 100: one accurate
trocar-placement action on the trocar step yields a technical score of
2000 and an overall score of 1420.1. -/
theorem technical_score_overflow :
    (assess_step chole_state 2 [trocar_action] 300 0).toOption.map
      (fun a => a.technical_score) = some 2000 ∧
    (assess_step chole_state 2 [trocar_action] 300 0).toOption.map
      (fun a => a.overall_score) = some (14201/10) ∧
    ¬ ((2000 : ℚ) ≤ 100) := by
  refine ⟨by decide!, by decide!, by norm_num⟩

/- ## C3: communication sub-score -/

/-- The communication sub-score as the claim words it: 25 points for each
of the three criteria that is satisfied by at least one communication
action, clamped to 100. -/
def spec_communication_score (actions : List ActionRecord) : ℚ :=
  let comm := actions.filter (fun a => a.type == "communication")
  if comm.isEmpty then 50
  else
    min ((if comm.any (fun c => c.clarity > 8/10) then (25 : ℚ) else 0) +
         (if comm.any (fun c => c.timing > 8/10) then 25 else 0) +
         (if comm.any (fun c => c.professionalism > 8/10) then 25 else 0)) 100

/-- C3 (counterexample): two communication actions that each satisfy all
three criteria score 100 in the source (the 25-point bonuses accumulate
per action), while the claim's reading caps the pre-clamp total at 75. -/
theorem communication_per_action_counterexample :
    assess_communication [good_comm, good_comm] = 100 ∧
    spec_communication_score [good_comm, good_comm] = 75 ∧
    ((100 : ℚ) ≠ 75) := by
  refine ⟨by decide!, by decide!, by norm_num⟩

/-- Closed form of the accumulation loop of `_assess_communication`. -/
theorem comm_fold_closed (l : List ActionRecord) (s : ℚ) :
    l.foldl (fun score comm =>
      let s1 := if comm.clarity > 8/10 then score + 25 else score
      let s2 := if comm.timing > 8/10 then s1 + 25 else s1
      if comm.professionalism > 8/10 then s2 + 25 else s2) s =
    s + 25 * (l.countP (fun c => decide (c.clarity > 8/10)) : ℚ) +
        25 * (l.countP (fun c => decide (c.timing > 8/10)) : ℚ) +
        25 * (l.countP (fun c => decide (c.professionalism > 8/10)) : ℚ) := by
  induction l generalizing s with
  | nil => simp
  | cons a l ih =>
    simp only [List.foldl_cons, List.countP_cons, ih]
    by_cases h1 : a.clarity > 8/10 <;> by_cases h2 : a.timing > 8/10 <;>
      by_cases h3 : a.professionalism > 8/10 <;>
      simp [h1, h2, h3] <;> ring

/-- C3 (amended): with no communication action the sub-score is 50;
otherwise it is 25 points per communication action per satisfied
criterion, summed over all communication actions, clamped to 100 (so two
fully satisfactory actions already reach the clamp). -/
theorem assess_communication_per_action (actions : List ActionRecord) :
    assess_communication actions =
      (if (actions.filter (fun a => a.type == "communication")).isEmpty then (50 : ℚ)
       else min
         (25 * ((actions.filter (fun a => a.type == "communication")).countP
            (fun c => decide (c.clarity > 8/10)) : ℚ) +
          25 * ((actions.filter (fun a => a.type == "communication")).countP
            (fun c => decide (c.timing > 8/10)) : ℚ) +
          25 * ((actions.filter (fun a => a.type == "communication")).countP
            (fun c => decide (c.professionalism > 8/10)) : ℚ)) 100) := by
  simp only [assess_communication]
  split_ifs with h
  · rfl
  · rw [comm_fold_closed]
    norm_num

/- ## C4: duration customization -/

/-- A catalog-shaped step with the duration range of the claim. -/
def sample_prep_step : Step :=
  { step_number := 1
    title := "Patient Preparation"
    description := "Position patient supine, prep and drape surgical site"
    duration := "10-15 minutes"
    critical_points := []
    instruments := [] }

/-- C4 (code bug evaluation): the claim's beginner example holds
("10-15 minutes" times 1.5, truncated, is "15-22 minutes"), and the
duration helpers do multiply-and-truncate ("8-12 minutes" at 0.8), but
the advanced path of `_customize_steps_for_difficulty` calls the
undefined method `_add_technique_variations` and raises `AttributeError`
before ever reducing a duration, so no advanced step becomes
"8-12 minutes". -/
theorem advanced_customization_attribute_error :
    err_of (customize_steps_for_difficulty [sample_prep_step] "advanced") =
      some missing_variations_error ∧
    (customize_steps_for_difficulty [sample_prep_step] "beginner").toOption.map
      (List.map Step.duration) = some ["15-22 minutes"] ∧
    (customize_steps_for_difficulty [sample_prep_step] "expert").toOption.map
      (List.map Step.duration) = some ["7-10 minutes"] ∧
    (reduce_duration "10-15 minutes" (8/10)).toOption = some "8-12 minutes" ∧
    (extend_duration "10-15 minutes" (3/2)).toOption = some "15-22 minutes" := by
  refine ⟨by decide!, by decide!, by decide!, by decide!, by decide!⟩

/- ## C5: step-count preservation -/

/-- C5 (code bug evaluation): generating any scenario at "advanced"
difficulty raises the `AttributeError` of the missing
`_add_technique_variations` method instead of producing a scenario, so
the claimed step-count invariant cannot hold for every difficulty; for
the other difficulties (including unknown ones, which pass through) the
generated scenario has exactly the template's step count. -/
theorem generate_scenario_advanced_crashes :
    err_of (generate_scenario "laparoscopic_cholecystectomy" "advanced" () [] true 1 0 0 0 0) =
      some missing_variations_error ∧
    (generate_scenario "laparoscopic_cholecystectomy" "beginner" () [] false 1 0 0 0 0).toOption.map
      (fun s => s.steps.length) = some 6 ∧
    (generate_scenario "knee_arthroscopy" "expert" () [] false 1 0 0 0 0).toOption.map
      (fun s => s.steps.length) = some 6 ∧
    (generate_scenario "appendectomy" "novice" () [] false 1 0 0 0 0).toOption.map
      (fun s => s.steps.length) = some 5 := by
  refine ⟨by decide!, by decide!, by decide!, by decide!⟩

/- ## C6: pre-planned complication generation -/

/-- The complication produced by a bleeding draw with index 0 picks and a
trigger draw of 1 (so trigger step 3). -/
def bleeding_sample : Complication :=
  { type := "bleeding"
    severity := "mild"
    location := "trocar site"
    trigger_step := 3
    management_options := ["pressure", "electrocautery", "clip application", "conversion"] }

/-- C6 (code bug evaluation): a successful Bernoulli roll that selects
"equipment_failure" raises `KeyError: severity`, because that library
entry has "type" and "management" keys but no "severity" (or "locations")
key, so its severity and location cannot be taken from the catalog entry
as the claim states. The at-most-one and trigger-range parts of the claim
do hold of every successful generation. -/
theorem equipment_failure_severity_key_error :
    err_of (generate_complications "laparoscopic_cholecystectomy" "beginner" 0 2 0 0 0) =
      some "KeyError: severity" ∧
    (∀ (p d : String) (roll : ℚ) (a b c e : ℕ) (l : List Complication),
      generate_complications p d roll a b c e = Except.ok l →
      l.length ≤ 1 ∧ ∀ comp ∈ l, 2 ≤ comp.trigger_step ∧ comp.trigger_step ≤ 5) := by
  constructor
  · decide!
  · intro p d roll a b c e l h
    simp only [generate_complications] at h
    split_ifs at h
    all_goals try (repeat' split at h)
    all_goals
      first
        | exact Except.noConfusion h
        | (simp only [Except.ok.injEq] at h
           subst h
           refine ⟨by simp, ?_⟩
           intro comp hc
           first
             | (simp only [List.mem_singleton] at hc
                subst hc
                exact ⟨show 2 ≤ 2 + e % 4 by omega, show 2 + e % 4 ≤ 5 by omega⟩)
             | exact absurd hc (List.not_mem_nil comp))

/-- C6 (witness): the positive part applied to a successful bleeding
draw for an appendectomy at expert difficulty. -/
theorem equipment_failure_severity_key_error_witness :
    [bleeding_sample].length ≤ 1 ∧
    2 ≤ bleeding_sample.trigger_step ∧ bleeding_sample.trigger_step ≤ 5 := by
  have h := equipment_failure_severity_key_error.2 "appendectomy" "expert" 0 0 0 0 1
    [bleeding_sample] (by decide!)
  exact ⟨h.1, h.2 bleeding_sample (by simp)⟩

/- ## C7: estimated total duration -/

/-- The components of every step duration, in order, failing like
`_calculate_duration` does on the first malformed one. -/
def parse_all_durations : List Step → Except String (List (List ℕ))
  | [] => Except.ok []
  | step :: rest =>
    match duration_nums step.duration with
    | Except.error e => Except.error e
    | Except.ok nums =>
      match parse_all_durations rest with
      | Except.error e => Except.error e
      | Except.ok others => Except.ok (nums :: others)

/-- The estimated duration as the claim words it: the sum of the
midpoints of the duration ranges, rounded to the nearest integer minute. -/
def spec_estimated_duration (l : List (ℕ × ℕ)) : ℤ :=
  round ((l.map (fun p => ((p.1 : ℚ) + (p.2 : ℚ)) / 2)).sum)

/-- C7 (counterexample): the appendectomy template's midpoints sum to
47.5 minutes; the source truncates (`int(total)`) to 47, while the
claim's rounding to the nearest minute gives 48. -/
theorem estimated_duration_truncation_counterexample :
    (generate_scenario "appendectomy" "intermediate" () [] false 1 0 0 0 0).toOption.map
      (fun s => s.procedure_info.estimated_duration) = some 47 ∧
    spec_estimated_duration [(10, 15), (5, 10), (10, 15), (5, 10), (5, 10)] = 48 ∧
    ((47 : ℤ) ≠ 48) := by
  refine ⟨by decide!, ?_, by norm_num⟩
  have : ((([(10, 15), (5, 10), (10, 15), (5, 10), (5, 10)] : List (ℕ × ℕ)).map
      (fun p => ((p.1 : ℚ) + (p.2 : ℚ)) / 2)).sum) = 95/2 := by norm_num
  rw [spec_estimated_duration, this, round_eq]
  norm_num

/-- The running total of `_calculate_duration` over parsed durations. -/
theorem step_midpoint_total_eq (steps : List Step) (l : List (List ℕ))
    (h : parse_all_durations steps = Except.ok l) :
    step_midpoint_total steps = Except.ok ((l.map (fun ns => (ns.sum : ℚ) / 2)).sum) := by
  induction steps generalizing l with
  | nil =>
    simp only [parse_all_durations, Except.ok.injEq] at h
    subst h
    simp [step_midpoint_total]
  | cons st rest ih =>
    unfold parse_all_durations at h
    unfold step_midpoint_total
    cases hd : duration_nums st.duration with
    | error e => rw [hd] at h; exact absurd h (by simp)
    | ok nums =>
      rw [hd] at h
      cases hr : parse_all_durations rest with
      | error e => rw [hr] at h; exact absurd h (by simp)
      | ok others =>
        rw [hr] at h
        simp only [Except.ok.injEq] at h
        subst h
        rw [ih others hr]
        simp [add_comm]

/-- Sums of duration midpoints are non-negative. -/
theorem midpoint_sum_nonneg (l : List (List ℕ)) :
    0 ≤ (l.map (fun ns => (ns.sum : ℚ) / 2)).sum := by
  apply List.sum_nonneg
  intro x hx
  simp only [List.mem_map] at hx
  obtain ⟨ns, _, rfl⟩ := hx
  positivity

/-- Truncation toward zero is the floor on non-negative rationals. -/
theorem py_int_eq_floor (q : ℚ) (h : 0 ≤ q) : py_int q = Int.floor q := by
  unfold py_int
  rw [if_neg (not_lt.mpr h)]

/-- C7 (amended): when every duration string parses, the estimated
duration is the floor (truncation) of the sum of the duration midpoints,
not the nearest integer. -/
theorem calculate_duration_truncates (steps : List Step) (d : String) (l : List (List ℕ))
    (h : parse_all_durations steps = Except.ok l) :
    calculate_duration steps d =
      Except.ok (Int.floor ((l.map (fun ns => (ns.sum : ℚ) / 2)).sum)) := by
  unfold calculate_duration
  rw [step_midpoint_total_eq steps l h]
  exact congrArg Except.ok (py_int_eq_floor _ (midpoint_sum_nonneg l))

/-- C7 (witness): the amended theorem applied to the appendectomy
template steps. -/
theorem calculate_duration_truncates_witness :
    parse_all_durations appendectomy_template.steps =
      Except.ok [[10, 15], [5, 10], [10, 15], [5, 10], [5, 10]] ∧
    calculate_duration appendectomy_template.steps "intermediate" =
      Except.ok (Int.floor (((([[10, 15], [5, 10], [10, 15], [5, 10], [5, 10]] : List (List ℕ))).map
        (fun ns => (ns.sum : ℚ) / 2)).sum)) := by
  refine ⟨by decide!, ?_⟩
  exact calculate_duration_truncates _ _ _ (by decide!)

/- ## C8: final assessment -/

/-- A recorded feedback bundle for the witness state. -/
def one_step_feedback : Feedback :=
  { overall_level := "good"
    summary := "Solid understanding of procedure demonstrated"
    technical_feedback := "Good technical skills demonstrated with room for refinement in precision."
    non_technical_feedback := "Good team interaction and appropriate clinical decisions made."
    recommendations := [] }

/-- A recorded step assessment with overall score 80. -/
def one_step_assessment : StepAssessment :=
  { step_number := 1
    technical_score := 80
    non_technical_score := 80
    overall_score := 80
    feedback := one_step_feedback
    time_taken := 600
    areas_for_improvement := [] }

/-- A simulation state with exactly one recorded step assessment. -/
def one_step_state : SimulationState :=
  { simulation := chole_state.simulation
    step_assessments := [one_step_assessment] }

/-- C8: with an empty step-assessment history `generate_final_assessment`
returns the designated error marker rather than a report; with a
non-empty history it returns a `FinalAssessment` whose certification gate
is the raw overall average reaching 75 and whose next-difficulty gate is
that average reaching 85. -/
theorem final_assessment_empty_marker_and_gates :
    (∀ sd : SimulationState, sd.step_assessments = [] →
      generate_final_assessment sd = Except.error "No step assessments found") ∧
    (∀ sd : SimulationState, sd.step_assessments ≠ [] →
      generate_final_assessment sd = Except.ok (build_final_assessment sd) ∧
      ((build_final_assessment sd).certification_eligible = true ↔
        75 ≤ (sd.step_assessments.map (fun a => a.overall_score)).sum /
          ((sd.step_assessments.map (fun a => a.overall_score)).length : ℚ)) ∧
      ((build_final_assessment sd).next_difficulty_ready = true ↔
        85 ≤ (sd.step_assessments.map (fun a => a.overall_score)).sum /
          ((sd.step_assessments.map (fun a => a.overall_score)).length : ℚ))) := by
  constructor
  · intro sd h
    simp [generate_final_assessment, h]
  · intro sd h
    have hne : sd.step_assessments.isEmpty = false := by
      cases hsa : sd.step_assessments with
      | nil => exact absurd hsa h
      | cons x xs => rfl
    refine ⟨by simp [generate_final_assessment, hne], ?_, ?_⟩
    · simp only [build_final_assessment]
      rw [decide_eq_true_iff]
    · simp only [build_final_assessment]
      rw [decide_eq_true_iff]

/-- C8 (witness): on the one-step state with overall 80, the theorem
yields a report that is certification-eligible but not ready for the next
difficulty. -/
theorem final_assessment_gates_witness :
    generate_final_assessment one_step_state = Except.ok (build_final_assessment one_step_state) ∧
    (build_final_assessment one_step_state).certification_eligible = true ∧
    (build_final_assessment one_step_state).next_difficulty_ready = false := by
  have h := final_assessment_empty_marker_and_gates.2 one_step_state (by simp [one_step_state])
  refine ⟨h.1, h.2.1.mpr (by decide!), ?_⟩
  have hnot : ¬ (85 ≤ (one_step_state.step_assessments.map (fun a => a.overall_score)).sum /
      ((one_step_state.step_assessments.map (fun a => a.overall_score)).length : ℚ)) := by decide!
  rcases Bool.eq_false_or_eq_true ((build_final_assessment one_step_state).next_difficulty_ready)
    with hb | hb
  · exact absurd (h.2.2.mp hb) hnot
  · exact hb

/- ## C9: dynamic complications -/

/-- C9 (counterexample): the claim says every result of
`generate_dynamic_complication` is a non-empty complication scenario, but
the draw that selects "equipment_malfunction" (one of the three equally
likely type names) has no entry in the scenario dictionary, so
`.get(selected, {})` returns the empty dictionary, modelled as `none`. -/
theorem dynamic_complication_empty_counterexample :
    generate_dynamic_complication chole_state 2 2 = none := by decide!

/-- C9 (amended): a draw of "unexpected_bleeding" or "adhesions" yields
that catalog scenario with its description, severity, ordered
immediate-action list and time limit; a draw of "equipment_malfunction"
yields the empty dictionary. -/
theorem dynamic_complication_cases (sd : SimulationState) (cs pick : ℕ) :
    generate_dynamic_complication sd cs pick =
      (match pick % 3 with
       | 0 => some unexpected_bleeding_scenario
       | 1 => some adhesions_scenario
       | _ => none) := by
  have h3 : pick % 3 = 0 ∨ pick % 3 = 1 ∨ pick % 3 = 2 := by omega
  rcases h3 with h | h | h
  all_goals
    simp [generate_dynamic_complication, py_choice, dynamic_complication_types,
      complication_scenarios, h]
  all_goals decide!

/-- `assess_step` when the target index resolves to no step. -/
theorem assess_step_of_py_get_none (sd : SimulationState) (n : ℤ)
    (acts : List ActionRecord) (t : ℚ) (pick : ℕ)
    (hpg : py_get sd.simulation.steps (n - 1) = none) :
    assess_step sd n acts t pick = Except.error "StepOutOfRange" := by
  unfold assess_step
  rw [hpg]

/-- `assess_step` when the target index resolves to a step. -/
theorem assess_step_of_py_get_some (sd : SimulationState) (n : ℤ)
    (acts : List ActionRecord) (t : ℚ) (pick : ℕ) (st : Step)
    (hpg : py_get sd.simulation.steps (n - 1) = some st) :
    assess_step sd n acts t pick =
      build_step_assessment (procedure_key sd.simulation.procedure_info.name)
        st n acts t pick := by
  unfold assess_step
  rw [hpg]

/- ## C10: procedures missing from the scoring-criteria table -/

/-- C10: the appendectomy and knee-arthroscopy scenario names derive the
keys "laparoscopic_appendectomy" and "knee_arthroscopy", which are absent
from the scoring-criteria table (its keys are
"laparoscopic_cholecystectomy" and "appendectomy"), so every successful
step assessment for those scenarios has technical score 0 and overall
score 0.3 times the non-technical score. -/
theorem unlisted_procedures_score_zero (sd : SimulationState) (n : ℤ)
    (acts : List ActionRecord) (t : ℚ) (pick : ℕ) (a : StepAssessment)
    (hname : sd.simulation.procedure_info.name = "Laparoscopic Appendectomy" ∨
             sd.simulation.procedure_info.name = "Knee Arthroscopy")
    (hok : assess_step sd n acts t pick = Except.ok a) :
    scoring_criteria.lookup (procedure_key sd.simulation.procedure_info.name) = none ∧
    a.technical_score = 0 ∧
    a.overall_score = a.non_technical_score * (3/10) := by
  have hkey : scoring_criteria.lookup (procedure_key sd.simulation.procedure_info.name) = none := by
    rcases hname with h | h <;> rw [h] <;> decide!
  refine ⟨hkey, ?_⟩
  cases hpg : py_get sd.simulation.steps (n - 1) with
  | none =>
    rw [assess_step_of_py_get_none sd n acts t pick hpg] at hok
    exact Except.noConfusion hok
  | some st =>
    rw [assess_step_of_py_get_some sd n acts t pick st hpg] at hok
    unfold build_step_assessment at hok
    have htech : assess_technical_skills
        (procedure_key sd.simulation.procedure_info.name) st acts t = 0 := by
      unfold assess_technical_skills
      rw [hkey]
    rw [htech] at hok
    cases hnt : assess_non_technical_skills st acts t with
    | error e => rw [hnt] at hok; exact Except.noConfusion hok
    | ok nt =>
      rw [hnt] at hok
      simp only [Except.ok.injEq] at hok
      subst hok
      refine ⟨rfl, ?_⟩
      show (0 : ℚ) * (7/10) + nt * (3/10) = nt * (3/10)
      ring

/-- C10 (witness): the theorem applied to a knee-arthroscopy assessment
of step 1. -/
theorem unlisted_procedures_score_zero_witness :
    (assess_step knee_state 1 [] 600 0).toOption.map (fun a => a.technical_score) = some 0 ∧
    (assess_step knee_state 1 [] 600 0).toOption.map
      (fun a => decide (a.overall_score = a.non_technical_score * (3/10))) = some true := by
  have hsome : is_ok (assess_step knee_state 1 [] 600 0) = true := by decide!
  cases hok : assess_step knee_state 1 [] 600 0 with
  | error e => rw [hok] at hsome; exact Bool.noConfusion hsome
  | ok a =>
    have h := unlisted_procedures_score_zero knee_state 1 [] 600 0 a (Or.inr rfl) hok
    refine ⟨by simp [Except.toOption, h.2.1], by simp [Except.toOption, h.2.2]⟩
